import Mathlib

/-!
Verification of the streaming transcription pipeline in
`fastapi-backend/main.py` (repository `nlemoff/audio-transcriber`).

The Python source is shallowly embedded: times (Python floats used only for
comparison and copying) are modelled as exact rationals, the engine's lazy
segment stream as a `List Segment`, and the async generators as functions
returning the list of values they yield in order.  The external collaborators
(pydub decoding, the whisper engine) are modelled by their observable
outcomes, as the spec treats them as black boxes.
-/

namespace AudioTranscriber

/-- A segment produced by the transcription engine: `{start, end, text}`.
`end` is a Lean keyword, so the field is `endTime`. -/
structure Segment where
  start : ℚ
  endTime : ℚ
  text : String
deriving DecidableEq, Repr

/-- Python `str.strip()`: drop leading and trailing whitespace. -/
def pyStrip (s : String) : String :=
  String.mk (((s.data.dropWhile Char.isWhitespace).reverse.dropWhile
    Char.isWhitespace).reverse)

/-- One event of the output stream of `transcribe_audio`: either a segment
record `{speaker, text, start, end, complete}` (the code always sets
`complete` to `False` on these) or the terminal record `{complete: true}`. -/
inductive TranscriptEvent where
  | seg (speaker : String) (text : String) (start : ℚ) (endTime : ℚ)
      (complete : Bool)
  | done (complete : Bool)
deriving DecidableEq, Repr

/-- The running attribution state of the loop in `transcribe_audio`:
`current_speaker` and `last_end_time` (seeded to `"Speaker 1"` and `0`). -/
structure AttributionState where
  currentSpeaker : String
  lastEndTime : ℚ
deriving DecidableEq, Repr

/-- Initial state of the loop: `current_speaker = "Speaker 1"`,
`last_end_time = 0` (main.py lines 91-92). -/
def initState : AttributionState :=
  { currentSpeaker := "Speaker 1", lastEndTime := 0 }

/-- The speaker flip on line 97:
`"Speaker 2" if current_speaker == "Speaker 1" else "Speaker 1"`. -/
def flipSpeaker (s : String) : String :=
  if s = "Speaker 1" then "Speaker 2" else "Speaker 1"

/-- One iteration of the `for segment in segments` loop body
(main.py lines 94-112): flip the speaker when
`segment.start - last_end_time > 0.5`; then, only if the stripped text is
non-empty, yield the record and set `last_end_time = segment.end`. -/
def processSegment (st : AttributionState) (seg : Segment) :
    AttributionState × List TranscriptEvent :=
  let sp := if seg.start - st.lastEndTime > 1/2 then
      flipSpeaker st.currentSpeaker
    else
      st.currentSpeaker
  let text := pyStrip seg.text
  if text ≠ "" then
    ({ currentSpeaker := sp, lastEndTime := seg.endTime },
     [TranscriptEvent.seg sp text seg.start seg.endTime false])
  else
    ({ currentSpeaker := sp, lastEndTime := st.lastEndTime }, [])

/-- The whole `for` loop: thread the state through the segments and collect
the yielded records in order. -/
def runSegments : AttributionState → List Segment → List TranscriptEvent
  | _, [] => []
  | st, seg :: rest =>
      let out := processSegment st seg
      out.2 ++ runSegments out.1 rest

/-- The event sequence yielded by a `transcribe_audio` invocation in which the
engine produced `segs` and raised no error: the loop's records followed by the
single completion record `{"complete": True}` (main.py line 115). -/
def transcribe_audio (segs : List Segment) : List TranscriptEvent :=
  runSegments initState segs ++ [TranscriptEvent.done true]

/-- Whether an event is the terminal `{"complete": true}` record. -/
def isTerminal : TranscriptEvent → Bool
  | TranscriptEvent.done true => true
  | _ => false

/-- The speakers of the segment records of an event list, in order. -/
def emittedSpeakers (evs : List TranscriptEvent) : List String :=
  evs.filterMap fun e =>
    match e with
    | TranscriptEvent.seg sp _ _ _ _ => some sp
    | TranscriptEvent.done _ => none

/-! ### Serialization and SSE framing

`transcribe_audio` yields `json.dumps(result) + "\n"` for each record
(main.py lines 111 and 115); `event_generator` (line 139) wraps each yielded
chunk as `f"data: {transcript}\n\n"`.  `json.dumps` is a library collaborator;
`serializeEvent` reproduces its output for the dictionaries the code builds
(insertion-ordered keys, `", "` and `": "` separators).  String-escaping of
exotic characters inside `text` and the exact float rendering are modelled
simply (no claim depends on them): a rational with denominator 1 prints as
Python prints the corresponding whole float. -/

/-- Rendering of a time value inside the JSON body (models Python float
printing for the values the claims use). -/
def ratToFloatStr (q : ℚ) : String :=
  if q.den = 1 then toString q.num ++ ".0" else toString q

/-- `json.dumps` of the two record shapes built in `transcribe_audio`. -/
def serializeEvent : TranscriptEvent → String
  | TranscriptEvent.seg sp t s e c =>
      "\x7b\"speaker\": \"" ++ sp ++ "\", \"text\": \"" ++ t ++
        "\", \"start\": " ++ ratToFloatStr s ++ ", \"end\": " ++
        ratToFloatStr e ++ ", \"complete\": " ++
        (if c then "true" else "false") ++ "\x7d"
  | TranscriptEvent.done c =>
      "\x7b\"complete\": " ++ (if c then "true" else "false") ++ "\x7d"

/-- The strings yielded by `transcribe_audio`: `json.dumps(result) + "\n"`,
one per event, in production order. -/
def transcribe_audio_lines (segs : List Segment) : List String :=
  (transcribe_audio segs).map fun e => serializeEvent e ++ "\n"

/-- The SSE framing applied by `event_generator`:
`f"data: {transcript}\n\n"` around one yielded chunk. -/
def sseFrame (t : String) : String := "data: " ++ t ++ "\n\n"

/-- The frames handed to `StreamingResponse` by `event_generator`
(main.py lines 137-139), in order. -/
def event_generator (segs : List Segment) : List String :=
  (transcribe_audio_lines segs).map sseFrame

/-! ### Normalization, the endpoint and cleanup

`process_audio_file` persists the upload to a `NamedTemporaryFile` with
suffix `".m4a"`, decodes it with pydub (auto-detect, then once more with
`format="m4a"` on any failure), normalizes, and exports
`temp_audio.name + ".wav"`.  The decoder is a black box, modelled by the
outcome of each of its two possible attempts on the uploaded bytes; the
filesystem is modelled as the list of temporary paths currently on disk. -/

/-- Outcome of pydub decoding for one uploaded payload: whether the
auto-detect attempt succeeds, whether the explicit `format="m4a"` attempt
succeeds, and the decoder message raised when an attempt fails. -/
structure AudioInput where
  autoDetectOk : Bool
  m4aOk : Bool
  decoderMsg : String
deriving DecidableEq, Repr

/-- A decode attempt made by `process_audio_file`: auto-detection
(line 38) or the explicit-`m4a` retry (line 41). -/
inductive AttemptKind where
  | auto
  | m4aHint
deriving DecidableEq, Repr

/-- The decode attempts actually made, in order: auto-detect first, and the
explicit-format retry exactly when auto-detection failed. -/
def attemptsMade (a : AudioInput) : List AttemptKind :=
  if a.autoDetectOk then [AttemptKind.auto]
  else [AttemptKind.auto, AttemptKind.m4aHint]

/-- The path of the persisted upload: the temporary file's name always
carries the `suffix=".m4a"` handed to `NamedTemporaryFile` (line 29),
independent of the uploaded filename. -/
def uploadPath (stem : String) : String := stem ++ ".m4a"

/-- The canonical-waveform path: `temp_audio.name + ".wav"` (line 47). -/
def wavPath (p : String) : String := p ++ ".wav"

/-- Python's `s[:-n]` slice: the string without its last `n` characters. -/
def pySliceDropLast (n : Nat) (s : String) : String :=
  String.mk (s.data.take (s.data.length - n))

/-- The two paths removed by the cleanup block (lines 123-124):
`os.remove(file_path)` and `os.remove(file_path[:-4])`. -/
def cleanupTargets (filePath : String) : List String :=
  [filePath, pySliceDropLast 4 filePath]

/-- Delete one path from the modelled filesystem. -/
def removeFile (fs : List String) (p : String) : List String :=
  fs.filter fun q => q ≠ p

/-- The `finally` block of `transcribe_audio` (lines 120-126): remove
`file_path`, then `file_path[:-4]`.  (In the modelled runs both files exist
when the block runs, so neither `os.remove` raises and the swallowed-error
branch is not taken.) -/
def cleanup (fs : List String) (filePath : String) : List String :=
  removeFile (removeFile fs filePath) (pySliceDropLast 4 filePath)

/-- Result of `process_audio_file`: either the canonical-waveform path or the
`HTTPException(status_code=400, ...)` it raises; paired with the temporary
files on disk when it returns.  `stem` is the temporary name chosen by
`NamedTemporaryFile` before its suffix. -/
def process_audio_file (stem : String) (a : AudioInput) :
    Except (Nat × String) String × List String :=
  let p := uploadPath stem
  if a.autoDetectOk ∨ a.m4aOk then
    (Except.ok (wavPath p), [p, wavPath p])
  else
    (Except.error (400, "Error processing audio: " ++ a.decoderMsg), [p])

/-- Outcome of the engine call inside `transcribe_audio`: the segment list it
lazily produces, or a raised `TranscriptionError`. -/
inductive EngineResult where
  | ok (segs : List Segment)
  | err (msg : String)
deriving DecidableEq, Repr

/-- What the `/transcribe` endpoint hands back: a pre-stream `HTTPException`
(status, detail) or the streamed SSE frames. -/
inductive Response where
  | error (status : Nat) (detail : String)
  | stream (frames : List String)
deriving DecidableEq, Repr

/-- The SSE events a response delivers: none for a pre-stream error. -/
def responseEvents : Response → List String
  | Response.error _ _ => []
  | Response.stream frames => frames

/-- One full invocation of the `/transcribe` endpoint (main.py lines
128-153): run `process_audio_file`; on its `HTTPException` re-raise it with
no stream started; otherwise stream `transcribe_audio` through
`event_generator`, with the `finally` cleanup of `transcribe_audio` running
on both engine success and engine failure.  Returns the response and the
temporary files still on disk afterwards. -/
def pipeline (stem : String) (a : AudioInput) (er : EngineResult) :
    Response × List String :=
  match process_audio_file stem a with
  | (Except.error e, fs) => (Response.error e.1 e.2, fs)
  | (Except.ok wp, fs) =>
      match er with
      | EngineResult.ok segs =>
          (Response.stream (event_generator segs), cleanup fs wp)
      | EngineResult.err m =>
          (Response.error 500 ("Transcription error: " ++ m), cleanup fs wp)

/-! ### The turn-attribution state machine as the spec states it

Two reference machines, written from the spec's words (speaker `A` is
`"Speaker 1"`, speaker `B` is `"Speaker 2"`), for comparison with the code's
loop.  `claimStep` follows the spec sentence literally: after every segment
`lastSegmentEndTime` becomes `segment.end`, whether or not the segment was
emitted.  `amendedStep` is the same machine with the one change the code
forces: `lastSegmentEndTime` advances only when the segment's stripped text
is non-empty (the dropped segment leaves it unchanged). -/

/-- One step of the machine exactly as the spec words it: flip iff the gap
exceeds 0.5 s, label, then `lastSegmentEndTime = segment.end`
unconditionally; only non-empty-text segments are emitted. -/
def claimStep (st : AttributionState) (seg : Segment) :
    AttributionState × List TranscriptEvent :=
  let sp := if seg.start - st.lastEndTime > 1/2 then
      flipSpeaker st.currentSpeaker
    else
      st.currentSpeaker
  let text := pyStrip seg.text
  ({ currentSpeaker := sp, lastEndTime := seg.endTime },
   if text ≠ "" then [TranscriptEvent.seg sp text seg.start seg.endTime false]
   else [])

/-- The spec's machine run over a segment list. -/
def claimRun : AttributionState → List Segment → List TranscriptEvent
  | _, [] => []
  | st, seg :: rest =>
      let out := claimStep st seg
      out.2 ++ claimRun out.1 rest

/-- One step of the amended machine: as `claimStep`, except that
`lastSegmentEndTime` becomes `segment.end` only when the segment's stripped
text is non-empty; a dropped segment leaves it unchanged. -/
def amendedStep (st : AttributionState) (seg : Segment) :
    AttributionState × List TranscriptEvent :=
  let sp := if seg.start - st.lastEndTime > 1/2 then
      flipSpeaker st.currentSpeaker
    else
      st.currentSpeaker
  let text := pyStrip seg.text
  if text ≠ "" then
    ({ currentSpeaker := sp, lastEndTime := seg.endTime },
     [TranscriptEvent.seg sp text seg.start seg.endTime false])
  else
    ({ currentSpeaker := sp, lastEndTime := st.lastEndTime }, [])

/-- The amended machine run over a segment list. -/
def amendedRun : AttributionState → List Segment → List TranscriptEvent
  | _, [] => []
  | st, seg :: rest =>
      let out := amendedStep st seg
      out.2 ++ amendedRun out.1 rest

/-- The concrete segment list of the spec's alternation example: starts
`[0.0, 0.3, 1.2, 1.3]`, ends `[0.2, 0.4, 1.25, 1.5]`, all texts non-empty. -/
def exampleSegs : List Segment :=
  [⟨0, 1/5, "a"⟩, ⟨3/10, 2/5, "b"⟩, ⟨6/5, 5/4, "c"⟩, ⟨13/10, 3/2, "d"⟩]

/-! ### Supporting lemmas -/

/-- Every event the loop itself yields is a segment record with
`complete = false`; the terminal record comes only from line 115 after the
loop. -/
theorem runSegments_events (st : AttributionState) (segs : List Segment) :
    ∀ e ∈ runSegments st segs,
      ∃ sp t s en, e = TranscriptEvent.seg sp t s en false := by
  induction segs generalizing st with
  | nil => intro e he; cases he
  | cons seg rest ih =>
      intro e he
      simp only [runSegments, List.mem_append] at he
      rcases he with he | he
      · revert he
        simp only [processSegment]
        by_cases htext : pyStrip seg.text ≠ ""
        · simp only [if_pos htext, List.mem_singleton]
          intro he
          exact ⟨_, _, _, _, he⟩
        · simp only [if_neg htext]
          intro he
          cases he
      · exact ih _ e he

/-- Every segment record the loop yields has non-empty text (it is the
stripped text, emitted only when non-empty). -/
theorem runSegments_text_nonempty (st : AttributionState)
    (segs : List Segment) :
    ∀ sp t s en c,
      TranscriptEvent.seg sp t s en c ∈ runSegments st segs → t ≠ "" := by
  induction segs generalizing st with
  | nil => intro sp t s en c h; cases h
  | cons seg rest ih =>
      intro sp t s en c h
      simp only [runSegments, List.mem_append] at h
      rcases h with h | h
      · revert h
        simp only [processSegment]
        by_cases htext : pyStrip seg.text ≠ ""
        · simp only [if_pos htext, List.mem_singleton]
          intro h
          cases h
          exact htext
        · simp only [if_neg htext]
          intro h
          cases h
      · exact ih _ sp t s en c h

/-- The code's loop is the amended machine: the two step functions agree,
state and output alike. -/
theorem runSegments_eq_amendedRun (st : AttributionState)
    (segs : List Segment) : runSegments st segs = amendedRun st segs := by
  induction segs generalizing st with
  | nil => rfl
  | cons seg rest ih =>
      simp only [runSegments, amendedRun]
      have hstep : processSegment st seg = amendedStep st seg := by
        simp only [processSegment, amendedStep]
      rw [hstep, ih]

/-- Dropping the last 4 characters of `s ++ ".wav"` gives back `s`. -/
theorem pySliceDropLast_wav (s : String) :
    pySliceDropLast 4 (s ++ ".wav") = s := by
  cases s with
  | mk data =>
      show pySliceDropLast 4 (String.mk (data ++ ['.', 'w', 'a', 'v'])) =
        String.mk data
      simp only [pySliceDropLast, List.length_append, List.length_cons,
        List.length_nil, Nat.add_sub_cancel]
      rw [List.take_left]

/-- Appending `".wav"` never gives back the same path. -/
theorem wavPath_ne (p : String) : wavPath p ≠ p := by
  intro h
  have : (wavPath p).data.length = p.data.length := by rw [h]
  cases p with
  | mk data =>
      simp only [wavPath] at this
      have hd : (String.mk data ++ ".wav").data = data ++ ['.', 'w', 'a', 'v'] := rfl
      rw [hd] at this
      simp [List.length_append] at this

/-! ## The claims -/

/-- **C1.** On a successful run (the engine yields `segs` and raises no
error), `transcribe_audio` emits exactly one terminal `{"complete": true}`
event, it is the last event of the stream, and every earlier event is a
segment record with `complete = false`. -/
theorem complete_marker_once_and_last (segs : List Segment) :
    (transcribe_audio segs).getLast? = some (TranscriptEvent.done true) ∧
    (transcribe_audio segs).countP isTerminal = 1 ∧
    ∀ e ∈ (transcribe_audio segs).dropLast,
      ∃ sp t s en, e = TranscriptEvent.seg sp t s en false := by
  refine ⟨List.getLast?_concat _, ?_, ?_⟩
  · rw [transcribe_audio, List.countP_append]
    have h0 : (runSegments initState segs).countP isTerminal = 0 := by
      rw [List.countP_eq_zero]
      intro e he
      obtain ⟨sp, t, s, en, rfl⟩ := runSegments_events initState segs e he
      simp [isTerminal]
    rw [h0]
    rfl
  · rw [transcribe_audio, List.dropLast_concat]
    exact runSegments_events initState segs

/-- **C2, counterexample.** The loop does not follow the claimed machine (the
one that sets `lastSegmentEndTime = segment.end` after every segment): on
the two-segment input `[{start 0, end 5, text ""}, {start 5.2, end 6,
text "hi"}]` the code labels the emitted segment `Speaker 2` (the empty
segment left `last_end_time` at 0, so the 5.2-second gap flips), while the
claimed machine labels it `Speaker 1` (its end time advanced to 5, leaving a
0.2-second gap). -/
theorem claimed_state_machine_refuted :
    runSegments initState [⟨0, 5, ""⟩, ⟨26/5, 6, "hi"⟩] =
      [TranscriptEvent.seg "Speaker 2" "hi" (26/5) 6 false] ∧
    claimRun initState [⟨0, 5, ""⟩, ⟨26/5, 6, "hi"⟩] =
      [TranscriptEvent.seg "Speaker 1" "hi" (26/5) 6 false] ∧
    runSegments initState [⟨0, 5, ""⟩, ⟨26/5, 6, "hi"⟩] ≠
      claimRun initState [⟨0, 5, ""⟩, ⟨26/5, 6, "hi"⟩] := by
  refine ⟨?_, ?_, ?_⟩
  · norm_num +decide [runSegments, processSegment, initState, flipSpeaker,
      pyStrip]
  · norm_num +decide [claimRun, claimStep, initState, flipSpeaker, pyStrip]
  · norm_num +decide [runSegments, processSegment, claimRun, claimStep,
      initState, flipSpeaker, pyStrip]

/-- **C2, amended.** Turn attribution follows the claimed state machine with
one correction: `lastSegmentEndTime` becomes `segment.end` only for segments
whose stripped text is non-empty (a dropped segment leaves it unchanged).
On the spec's example (starts `[0.0, 0.3, 1.2, 1.3]`, ends
`[0.2, 0.4, 1.25, 1.5]`, all texts non-empty) the emitted speaker sequence
is `A, A, B, B` (`"Speaker 1"` is `A`, `"Speaker 2"` is `B`). -/
theorem turn_attribution_follows_amended_machine (st : AttributionState)
    (segs : List Segment) :
    runSegments st segs = amendedRun st segs ∧
    emittedSpeakers (runSegments initState exampleSegs) =
      ["Speaker 1", "Speaker 1", "Speaker 2", "Speaker 2"] := by
  refine ⟨runSegments_eq_amendedRun st segs, ?_⟩
  norm_num +decide [exampleSegs, emittedSpeakers, runSegments,
    processSegment, initState, flipSpeaker, pyStrip]

/-- Cleanup over the two files the pipeline created removes exactly both. -/
theorem cleanup_removes_both (p : String) :
    cleanup [p, wavPath p] (wavPath p) = [] := by
  have h1 : ¬(p = wavPath p) := fun h => wavPath_ne p h.symm
  simp only [cleanup, removeFile, pySliceDropLast_wav, wavPath,
    List.filter_cons, List.filter_nil]
  simp [h1]

/-- **C3, counterexample.** The cleanup block does not surround
normalization: when both decode attempts fail on an invocation with upload
stem `"u"`, the invocation ends with the persisted original-upload temporary
file `"u.m4a"` still on disk (the `finally` block lives inside
`transcribe_audio`, which never runs). -/
theorem normalization_failure_leaves_upload :
    (pipeline "u" ⟨false, false, "boom"⟩ (EngineResult.ok [])).2 =
      [uploadPath "u"] ∧
    uploadPath "u" ∈ (pipeline "u" ⟨false, false, "boom"⟩
      (EngineResult.ok [])).2 := by
  constructor
  · decide
  · decide

/-- **C3, amended.** For every invocation on which normalization completed
(at least one decode attempt succeeded), both temporary resources — the
original upload and the canonical waveform — are deleted by the time the
invocation ends, whether the engine succeeds or fails: the `finally` block
inside `transcribe_audio` runs unconditionally around
transcribe → attribute → emit. -/
theorem cleanup_after_normalization (stem : String) (a : AudioInput)
    (er : EngineResult) (h : a.autoDetectOk ∨ a.m4aOk) :
    (pipeline stem a er).2 = [] := by
  rw [pipeline, process_audio_file]
  rw [if_pos h]
  cases er with
  | ok segs => exact cleanup_removes_both (uploadPath stem)
  | err m => exact cleanup_removes_both (uploadPath stem)

/-- Witness for the amended C3 at a concrete invocation. -/
theorem cleanup_after_normalization_witness :
    (pipeline "u" ⟨true, false, ""⟩ (EngineResult.ok [])).2 = [] :=
  cleanup_after_normalization "u" ⟨true, false, ""⟩ (EngineResult.ok [])
    (Or.inl rfl)

/-- **C4, counterexample.** The emitted record does not carry the engine's
`text` byte-for-byte: for a segment with text `" hi "` (non-empty once
stripped) the record's text is the stripped `"hi"`, not the engine's
`" hi "`. -/
theorem emitted_text_is_stripped_not_raw :
    processSegment initState ⟨0, 1, " hi "⟩ =
      ({ currentSpeaker := "Speaker 1", lastEndTime := 1 },
       [TranscriptEvent.seg "Speaker 1" "hi" 0 1 false]) ∧
    "hi" ≠ " hi " := by
  constructor
  · norm_num +decide [processSegment, initState, pyStrip, flipSpeaker]
  · decide

/-- **C4, amended.** For every segment whose stripped text is non-empty, the
emitted record carries the segment's `start` and `end` unchanged and its
`text` equal to the stripped engine text (byte-for-byte the engine's text
whenever that has no surrounding whitespace); the only other fields are the
attributed `speaker` and the literal `complete = false`. -/
theorem emitted_record_preserves_times (st : AttributionState)
    (seg : Segment) (h : pyStrip seg.text ≠ "") :
    (processSegment st seg).2 =
      [TranscriptEvent.seg (processSegment st seg).1.currentSpeaker
        (pyStrip seg.text) seg.start seg.endTime false] := by
  simp [processSegment, h]

/-- Witness for the amended C4 at a concrete segment. -/
theorem emitted_record_preserves_times_witness :
    (processSegment initState ⟨0, 1, "hi"⟩).2 =
      [TranscriptEvent.seg
        (processSegment initState ⟨0, 1, "hi"⟩).1.currentSpeaker
        (pyStrip "hi") 0 1 false] :=
  emitted_record_preserves_times initState ⟨0, 1, "hi"⟩ (by decide)

/-- **C5.** Normalization auto-detects first and retries exactly once with
the explicit `m4a` hint; the invocation fails with the 400 error carrying
`"Error processing audio: "` plus the decoder message if and only if both
attempts fail, and in that case zero SSE events are emitted. -/
theorem decode_retry_and_error_surface (stem : String) (a : AudioInput)
    (er : EngineResult) :
    (attemptsMade a).head? = some AttemptKind.auto ∧
    (attemptsMade a).length ≤ 2 ∧
    (AttemptKind.m4aHint ∈ attemptsMade a ↔ a.autoDetectOk = false) ∧
    ((∃ st d, (process_audio_file stem a).1 = Except.error (st, d)) ↔
      (a.autoDetectOk = false ∧ a.m4aOk = false)) ∧
    (a.autoDetectOk = false → a.m4aOk = false →
      (pipeline stem a er).1 =
        Response.error 400 ("Error processing audio: " ++ a.decoderMsg) ∧
      responseEvents (pipeline stem a er).1 = []) := by
  obtain ⟨auto, m4a, msg⟩ := a
  cases auto <;> cases m4a <;>
    simp [attemptsMade, process_audio_file, pipeline, responseEvents]

/-- **C6.** A segment dropped for empty stripped text does not advance
`last_end_time`: the state's end time after processing it equals its value
before, so the next segment's gap is computed against the last emitted
segment's end. -/
theorem dropped_segment_keeps_last_end_time (st : AttributionState)
    (seg : Segment) (h : pyStrip seg.text = "") :
    (processSegment st seg).1.lastEndTime = st.lastEndTime ∧
    (processSegment st seg).2 = [] := by
  simp [processSegment, h]

/-- Witness for C6 at a concrete whitespace-only segment. -/
theorem dropped_segment_keeps_last_end_time_witness :
    (processSegment initState ⟨1, 2, " "⟩).1.lastEndTime =
      initState.lastEndTime ∧
    (processSegment initState ⟨1, 2, " "⟩).2 = [] :=
  dropped_segment_keeps_last_end_time initState ⟨1, 2, " "⟩ (by decide)

/-- A frame around a chunk that already ends in a newline carries three
trailing newlines. -/
theorem sseFrame_line (s : String) :
    sseFrame (s ++ "\n") = "data: " ++ s ++ "\n\n\n" := by
  have h : ("\n" : String) ++ "\n\n" = "\n\n\n" := by decide
  simp [sseFrame, String.append_assoc, h]

/-- **C7, counterexample.** The transport frame is not of the form
`data: <json>\n\n`: the yielded chunk already ends in `"\n"`
(`json.dumps(result) + "\n"`), so the frame around the terminal record of the
empty-segment run is `data: {"complete": true}` followed by three newlines,
not two. -/
theorem sse_frame_has_extra_newline :
    event_generator [] = ["data: \x7b\"complete\": true\x7d\n\n\n"] ∧
    ("data: \x7b\"complete\": true\x7d\n\n\n" : String) ≠
      "data: " ++ serializeEvent (TranscriptEvent.done true) ++ "\n\n" := by
  constructor
  · decide
  · decide

/-- **C7, amended.** Each produced record is wrapped in exactly one transport
frame, of the form `data: <json>` followed by three newlines (the serialized
record carries its own trailing newline inside the `data:` framing), and the
frames handed to the transport are in exact production order — one frame per
record, no reordering or merging. -/
theorem sse_framing_one_event_per_record (segs : List Segment) :
    event_generator segs =
      (transcribe_audio segs).map
        (fun e => "data: " ++ serializeEvent e ++ "\n\n\n") ∧
    (event_generator segs).length = (transcribe_audio segs).length := by
  constructor
  · simp only [event_generator, transcribe_audio_lines, List.map_map]
    exact List.map_congr_left fun e _ => sseFrame_line (serializeEvent e)
  · simp [event_generator, transcribe_audio_lines]

/-- **C8.** A segment whose stripped text is empty contributes zero events,
and no record with empty text ever appears in the output stream. -/
theorem empty_text_segments_emit_nothing (st : AttributionState)
    (seg : Segment) (segs : List Segment) :
    (pyStrip seg.text = "" → (processSegment st seg).2 = []) ∧
    ∀ sp t s en c,
      TranscriptEvent.seg sp t s en c ∈ runSegments st segs → t ≠ "" := by
  constructor
  · intro h
    simp [processSegment, h]
  · exact runSegments_text_nonempty st segs

/-- **C9.** The flip check runs before the empty-text check: a dropped
segment whose start exceeds `last_end_time` by more than 0.5 s still flips
the current speaker while emitting nothing.  Concretely, the dropped segment
`{start 1, end 2, text ""}` changes the emitted label of the following
segment `{start 1.1, end 3, text "hi"}` from `"Speaker 2"` (its label when
the dropped segment is absent) to `"Speaker 1"`. -/
theorem dropped_segment_still_flips (st : AttributionState) (seg : Segment)
    (h1 : pyStrip seg.text = "") (h2 : seg.start - st.lastEndTime > 1/2) :
    (processSegment st seg).1.currentSpeaker =
      flipSpeaker st.currentSpeaker ∧
    (processSegment st seg).2 = [] ∧
    emittedSpeakers (runSegments initState [⟨1, 2, ""⟩, ⟨11/10, 3, "hi"⟩]) =
      ["Speaker 1"] ∧
    emittedSpeakers (runSegments initState [⟨11/10, 3, "hi"⟩]) =
      ["Speaker 2"] := by
  refine ⟨?_, ?_, ?_, ?_⟩
  · simp only [processSegment, if_pos h2, h1]
    simp
  · simp [processSegment, h1]
  · norm_num +decide [emittedSpeakers, runSegments, processSegment,
      initState, flipSpeaker, pyStrip]
  · norm_num +decide [emittedSpeakers, runSegments, processSegment,
      initState, flipSpeaker, pyStrip]

/-- Witness for C9 at the concrete dropped segment `{start 1, end 2,
text ""}` from the initial state. -/
theorem dropped_segment_still_flips_witness :
    (processSegment initState ⟨1, 2, ""⟩).1.currentSpeaker =
      flipSpeaker initState.currentSpeaker ∧
    (processSegment initState ⟨1, 2, ""⟩).2 = [] ∧
    emittedSpeakers (runSegments initState [⟨1, 2, ""⟩, ⟨11/10, 3, "hi"⟩]) =
      ["Speaker 1"] ∧
    emittedSpeakers (runSegments initState [⟨11/10, 3, "hi"⟩]) =
      ["Speaker 2"] :=
  dropped_segment_still_flips initState ⟨1, 2, ""⟩ (by decide)
    (by norm_num [initState])

/-- **C10.** The persisted upload path always ends in `".m4a"` (the suffix is
fixed by `NamedTemporaryFile`, independent of the uploaded filename), the
canonical-waveform path is the upload path with `".wav"` appended, and the
cleanup block's two targets — `file_path` and `file_path[:-4]` — are exactly
the waveform path and the upload path, the two files the pipeline created. -/
theorem temp_path_naming_and_cleanup_targets (stem : String)
    (a : AudioInput) :
    (uploadPath stem).data = stem.data ++ ('.' :: 'm' :: '4' :: 'a' :: []) ∧
    wavPath (uploadPath stem) = uploadPath stem ++ ".wav" ∧
    cleanupTargets (wavPath (uploadPath stem)) =
      [wavPath (uploadPath stem), uploadPath stem] ∧
    ((a.autoDetectOk ∨ a.m4aOk) →
      (process_audio_file stem a).2 =
        [uploadPath stem, wavPath (uploadPath stem)]) := by
  refine ⟨?_, rfl, ?_, ?_⟩
  · cases stem with
    | mk data => rfl
  · simp [cleanupTargets, wavPath, pySliceDropLast_wav]
  · intro h
    rw [process_audio_file, if_pos h]

end AudioTranscriber
